import Mathlib

/-!
Shallow embedding of the chat-completion proxy handler in `src/api/chat.js`.
The handler validates an inbound HTTP request, builds an upstream payload with
truthiness-based defaults, dispatches to the Fireworks inference API and relays
either a buffered JSON response or a byte-chunk stream back to the caller.
The upstream `fetch` result is supplied as an oracle argument; the result
records the response produced, whether the outbound call was made, and the
payload that would be sent.
-/

namespace ChatProxy

/-- JavaScript values as far as the handler inspects them: the handler only
uses truthiness, `.length`, and passes values through otherwise. -/
inductive JsValue where
  | vUndefined
  | vNull
  | vBool (b : Bool)
  | vNum (q : ℚ)
  | vStr (s : String)
  | vArr (elems : List JsValue)

/-- JavaScript truthiness: `undefined`, `null`, `false`, `0` and `""` are
falsy; everything else (including empty arrays) is truthy. -/
def truthy : JsValue → Bool
  | .vUndefined => false
  | .vNull => false
  | .vBool b => b
  | .vNum q => q != 0
  | .vStr s => s != ""
  | .vArr _ => true

/-- JavaScript `a || b`: returns `a` when truthy, otherwise `b`. -/
def jsOr (a b : JsValue) : JsValue := if truthy a then a else b

/-- JavaScript `.length` where it exists (strings and arrays); `none` models
`undefined` for other values. -/
def jsLen : JsValue → Option Nat
  | .vStr s => some s.length
  | .vArr xs => some xs.length
  | _ => none

/-- The guard `tools && tools.length > 0` of `src/api/chat.js` line 63:
truthy and with a length comparing greater than zero (a comparison against
`undefined` is false in JavaScript). -/
def jsHasItems (v : JsValue) : Bool :=
  truthy v && (match jsLen v with | some n => decide (0 < n) | none => false)

/-- The destructured fields of `req.body` (line 29). An absent field
destructures to `undefined`, so absent fields are `vUndefined`. -/
structure ReqBody where
  model : JsValue
  messages : JsValue
  temperature : JsValue
  top_p : JsValue
  top_k : JsValue
  max_tokens : JsValue
  presence_penalty : JsValue
  frequency_penalty : JsValue
  stream : JsValue
  tools : JsValue
  tool_choice : JsValue

/-- A request body in which every optional field is absent. -/
def emptyBody : ReqBody :=
  { model := .vUndefined, messages := .vUndefined, temperature := .vUndefined,
    top_p := .vUndefined, top_k := .vUndefined, max_tokens := .vUndefined,
    presence_penalty := .vUndefined, frequency_penalty := .vUndefined,
    stream := .vUndefined, tools := .vUndefined, tool_choice := .vUndefined }

/-- The inbound HTTP request: method plus `req.body`; `none` models
`req.body` being `undefined` (destructuring it throws). -/
structure Request where
  method : String
  body : Option ReqBody

/-- The upstream payload of lines 49-68: the object literal plus the
conditionally attached `tools` and `tool_choice` keys (`none` = key omitted). -/
structure FireworksPayload where
  model : JsValue
  messages : JsValue
  temperature : JsValue
  top_p : JsValue
  top_k : JsValue
  max_tokens : JsValue
  presence_penalty : JsValue
  frequency_penalty : JsValue
  stream : JsValue
  tools : Option JsValue
  tool_choice : Option JsValue

/-- Lines 49-68: defaults substituted by `||` for each falsy optional
parameter, then `tools`/`tool_choice` attached only when
`tools && tools.length > 0` (and `tool_choice` only when itself truthy). -/
def mkPayload (b : ReqBody) : FireworksPayload :=
  { model := b.model
    messages := b.messages
    temperature := jsOr b.temperature (.vNum 0.3)
    top_p := jsOr b.top_p (.vNum 0.9)
    top_k := jsOr b.top_k (.vNum 40)
    max_tokens := jsOr b.max_tokens (.vNum 8192)
    presence_penalty := jsOr b.presence_penalty (.vNum 0)
    frequency_penalty := jsOr b.frequency_penalty (.vNum 0)
    stream := jsOr b.stream (.vBool false)
    tools := if jsHasItems b.tools then some b.tools else none
    tool_choice :=
      if jsHasItems b.tools && truthy b.tool_choice then some b.tool_choice
      else none }

/-- The upstream response body channel for the streaming path: the chunks the
reader yields in order, and whether a transport fault interrupts the read
after those chunks (instead of a clean `done`). -/
structure UpstreamBody where
  chunks : List String
  fault : Bool

/-- The upstream `fetch` result: HTTP status, the error text `.text()` would
produce, the JSON `.json()` would produce, and the byte-stream channel
(`none` models a `null` `response.body`). -/
structure UpstreamResponse where
  status : Nat
  errorText : String
  json : JsValue
  body : Option UpstreamBody

/-- `response.ok`: status in the inclusive range 200-299. -/
def respOk (u : UpstreamResponse) : Bool :=
  decide (200 ≤ u.status) && decide (u.status ≤ 299)

/-- Response headers with `res.setHeader` semantics: a later set of the same
name replaces the earlier one (lookup finds the most recent). -/
def setHeader (hs : List (String × String)) (k v : String) :
    List (String × String) :=
  (k, v) :: hs

/-- Read a header: the most recently set value for the name. -/
def getHeader (hs : List (String × String)) (k : String) : Option String :=
  (hs.find? (fun p => p.1 == k)).map Prod.snd

/-- Lines 3-5: the CORS headers set for every request before any branching. -/
def corsHeaders : List (String × String) :=
  setHeader (setHeader (setHeader []
    "Access-Control-Allow-Origin" "*")
    "Access-Control-Allow-Methods" "GET, POST, OPTIONS")
    "Access-Control-Allow-Headers" "Content-Type, Authorization"

/-- Lines 107-112: the headers set on the streaming path after an OK upstream
response, narrowing `Access-Control-Allow-Headers` to `Content-Type`. -/
def streamHeaders (hs : List (String × String)) : List (String × String) :=
  setHeader (setHeader (setHeader (setHeader (setHeader (setHeader hs
    "Content-Type" "text/event-stream")
    "Cache-Control" "no-cache")
    "Connection" "keep-alive")
    "Access-Control-Allow-Origin" "*")
    "Access-Control-Allow-Methods" "GET, POST, OPTIONS")
    "Access-Control-Allow-Headers" "Content-Type"

/-- The body of a response the handler produces. -/
inductive ResBody where
  | empty
  | errJson (fields : List (String × String))
  | okJson (v : JsValue)
  | stream (writes : List String) (closed : Bool)

/-- A produced HTTP response: status, headers and body. -/
structure Response where
  status : Nat
  headers : List (String × String)
  body : ResBody

/-- The observable outcome of one handler invocation: the response, whether
the outbound upstream call was issued, and the payload sent when it was. -/
structure HandlerResult where
  response : Response
  upstreamCalled : Bool
  payload : Option FireworksPayload

/-- Line 20 guard `!apiKey`: the key is configured when the environment
variable is set and non-empty. -/
def keyConfigured : Option String → Bool
  | some s => s != ""
  | none => false

def rateLimitMsg : String :=
  "Rate limit exceeded. DeepSeek-V3-0324 has usage limits."

def authMsg : String :=
  "Invalid API key or insufficient permissions for DeepSeek-V3-0324."

def badReqMsg : String :=
  "Invalid request format for DeepSeek-V3-0324. Check parameters."

def unavailMsg : String :=
  "DeepSeek-V3-0324 service temporarily unavailable. Try again later."

def configMsg : String :=
  "API key not configured. Please check server environment variables."

def missingFieldsMsg : String :=
  "Missing required fields: model and messages"

def noBodyMsg : String :=
  "No response body from DeepSeek-V3-0324 API"

def netErrMsg : String :=
  "Network error connecting to DeepSeek-V3-0324. Check your internet connection."

def timeoutErrMsg : String :=
  "Request timeout with DeepSeek-V3-0324. The model may be processing a complex request."

/-- The synthetic SSE error event of line 133. -/
def interruptEvent : String :=
  "data: \x7b\"error\": \"Streaming interrupted\"\x7d\n\n"

/-- Lines 90-98: the streaming error translation (429, 401, 400 translated in
that order; any other status keeps the raw upstream error text). -/
def streamErrMessage (status : Nat) (errorText : String) : String :=
  if status = 429 then rateLimitMsg
  else if status = 401 then authMsg
  else if status = 400 then badReqMsg
  else errorText

/-- Lines 149-159: the non-streaming error translation (429, 401, 400, 503
translated in that order; any other status keeps the raw error text). -/
def nonStreamErrMessage (status : Nat) (errorText : String) : String :=
  if status = 429 then rateLimitMsg
  else if status = 401 then authMsg
  else if status = 400 then badReqMsg
  else if status = 503 then unavailMsg
  else errorText

/-- Whether `pat` occurs at the start of `s` (over character lists). -/
def charsStartWith : List Char → List Char → Bool
  | [], _ => true
  | _ :: _, [] => false
  | a :: as, b :: bs => a == b && charsStartWith as bs

/-- Whether `pat` occurs anywhere inside `s` (over character lists). -/
def charsHaveSub (pat s : List Char) : Bool :=
  match s with
  | [] => charsStartWith pat []
  | _ :: rest => charsStartWith pat s || charsHaveSub pat rest

/-- JavaScript `s.includes(pat)` for the catch-block message checks. -/
def strHas (s pat : String) : Bool := charsHaveSub pat.data s.data

/-- Lines 185-190: the top-level catch rewrites messages mentioning `fetch`
or `timeout`; any other message is surfaced raw. -/
def classifyCaught (msg : String) : String :=
  if strHas msg "fetch" then netErrMsg
  else if strHas msg "timeout" then timeoutErrMsg
  else msg

/-- The V8 error message thrown by line 29 when `req.body` is `undefined`. -/
def destructureMsg : String :=
  "Cannot destructure property \x27model\x27 of \x27req.body\x27 as it is undefined."

/-- Assemble one handler outcome: response status, headers and body, whether
the outbound call was made, and the payload sent when it was. -/
def outcome (status : Nat) (hs : List (String × String)) (b : ResBody)
    (called : Bool) (p : Option FireworksPayload) : HandlerResult :=
  { response := { status := status, headers := hs, body := b },
    upstreamCalled := called, payload := p }

/-- The full handler of `src/api/chat.js`, as a function of the configured
API key, the inbound request, and the upstream `fetch` oracle. -/
def handler (apiKey : Option String) (req : Request)
    (up : UpstreamResponse) : HandlerResult :=
  let hs := corsHeaders
  if req.method = "OPTIONS" then
    outcome 200 hs .empty false none
  else if req.method ≠ "POST" then
    outcome 405 hs (.errJson [("error", "Method not allowed")]) false none
  else if keyConfigured apiKey = false then
    outcome 500 hs (.errJson [("error", "Server configuration error"),
      ("message", configMsg)]) false none
  else
    match req.body with
    | none =>
      outcome 500 hs (.errJson [("error", "Internal server error"),
        ("message", classifyCaught destructureMsg)]) false none
    | some b =>
      if (truthy b.model && truthy b.messages) = false then
        outcome 400 hs (.errJson [("error", "Bad request"),
          ("message", missingFieldsMsg)]) false none
      else
        let p := mkPayload b
        if truthy b.stream then
          if respOk up = false then
            outcome up.status hs (.errJson [("error", "API request failed"),
              ("message", streamErrMessage up.status up.errorText)])
              true (some p)
          else
            let hs2 := streamHeaders hs
            match up.body with
            | none =>
              outcome 500 hs2 (.errJson [("error", noBodyMsg)]) true (some p)
            | some sb =>
              outcome 200 hs2 (.stream
                (sb.chunks ++ if sb.fault then [interruptEvent] else [])
                true) true (some p)
        else
          if respOk up = false then
            outcome up.status hs (.errJson [("error", "API request failed"),
              ("message", nonStreamErrMessage up.status up.errorText)])
              true (some p)
          else
            outcome 200 hs (.okJson up.json) true (some p)

/-! Concrete sample inputs used by witnesses and counterexamples. -/

/-- A body with the two required fields set and everything else absent. -/
def validBody : ReqBody :=
  { emptyBody with
    model := .vStr "accounts/fireworks/models/deepseek-v3",
    messages := .vArr [.vStr "hello"] }

/-- A valid body that requests streaming. -/
def streamingBody : ReqBody := { validBody with stream := .vBool true }

/-- A POST request carrying the given body. -/
def postReq (b : ReqBody) : Request := { method := "POST", body := some b }

/-- A valid body supplying every optional numeric parameter as 0 and
`stream` as `false`. -/
def zeroParamsBody : ReqBody :=
  { validBody with
    temperature := .vNum 0, top_p := .vNum 0, top_k := .vNum 0,
    max_tokens := .vNum 0, presence_penalty := .vNum 0,
    frequency_penalty := .vNum 0, stream := .vBool false }

/-- A three-chunk upstream stream channel that completes cleanly. -/
def okChunks : UpstreamBody :=
  { chunks := ["one", "two", "three"], fault := false }

/-- A successful upstream response with a three-chunk stream channel. -/
def okUpstream : UpstreamResponse :=
  { status := 200, errorText := "", json := .vStr "ok",
    body := some okChunks }

/-- A 503 upstream response carrying raw error text. -/
def up503 : UpstreamResponse :=
  { status := 503, errorText := "upstream raw error text", json := .vNull,
    body := none }

/-- An OK (204) upstream response whose body channel is `null`. -/
def up204 : UpstreamResponse :=
  { status := 204, errorText := "", json := .vNull, body := none }

/-- A valid body with one tool and `tool_choice` supplied explicitly as
`null` — present in the request, but falsy. -/
def toolsNullChoiceBody : ReqBody :=
  { validBody with tools := .vArr [.vStr "toolA"], tool_choice := .vNull }

/-- A valid body with one tool and a truthy `tool_choice`. -/
def toolsChoiceBody : ReqBody :=
  { validBody with
    tools := .vArr [.vStr "toolA"], tool_choice := .vStr "auto" }

/-- A GET request (neither OPTIONS nor POST). -/
def getReq : Request := { method := "GET", body := none }

/-- An OPTIONS preflight request. -/
def optionsReq : Request := { method := "OPTIONS", body := none }

/-! Theorems. -/

/-- Shared helper: on the valid-POST path the payload delivered upstream is
`mkPayload` of the request body, in every branch. -/
theorem handler_payload (k : Option String) (req : Request)
    (up : UpstreamResponse) (b : ReqBody) (hm : req.method = "POST")
    (hk : keyConfigured k = true) (hb : req.body = some b)
    (h1 : truthy b.model = true) (h2 : truthy b.messages = true) :
    (handler k req up).payload = some (mkPayload b) := by
  cases hub : up.body <;> cases ht : truthy b.stream <;>
    cases ho : respOk up <;>
      simp [handler, hm, hk, hb, h1, h2, ht, ho, hub, outcome]

/-- C4: a POST whose body lacks a truthy `model` or a truthy `messages` gets
HTTP 400 with an `error` field and a message naming the missing fields, and
the upstream call is never issued. -/
theorem missing_fields_rejected (k : Option String) (req : Request)
    (up : UpstreamResponse) (b : ReqBody) (hm : req.method = "POST")
    (hk : keyConfigured k = true) (hb : req.body = some b)
    (hmiss : truthy b.model = false ∨ truthy b.messages = false) :
    handler k req up =
      outcome 400 corsHeaders
        (.errJson [("error", "Bad request"), ("message", missingFieldsMsg)])
        false none := by
  have hv : (truthy b.model && truthy b.messages) = false := by
    rcases hmiss with h | h <;> simp [h]
  simp [handler, hm, hk, hb, hv]

/-- Witness for C4 at a concrete input: required fields absent. -/
theorem missing_fields_rejected_witness :
    handler (some "key") (postReq emptyBody) okUpstream =
      outcome 400 corsHeaders
        (.errJson [("error", "Bad request"), ("message", missingFieldsMsg)])
        false none :=
  missing_fields_rejected (some "key") (postReq emptyBody) okUpstream
    emptyBody rfl rfl rfl (Or.inl rfl)

/-- C7: with no configured API key, every POST returns 500 with the
configuration-specific message, and no upstream call is attempted. -/
theorem missing_key_config_error (k : Option String) (req : Request)
    (up : UpstreamResponse) (hm : req.method = "POST")
    (hk : keyConfigured k = false) :
    handler k req up =
      outcome 500 corsHeaders
        (.errJson [("error", "Server configuration error"),
          ("message", configMsg)])
        false none := by
  simp [handler, hm, hk]

/-- Witness for C7 at a concrete input: unset environment variable. -/
theorem missing_key_config_error_witness :
    handler none (postReq validBody) okUpstream =
      outcome 500 corsHeaders
        (.errJson [("error", "Server configuration error"),
          ("message", configMsg)])
        false none :=
  missing_key_config_error none (postReq validBody) okUpstream rfl rfl

/-- C10: a POST with `req.body` entirely absent is caught by the top-level
catch: HTTP 500 with category `Internal server error` (the raw destructuring
message, not rewritten), not the 400 of missing fields, and the upstream is
never called. -/
theorem undefined_body_internal_error (k : Option String) (req : Request)
    (up : UpstreamResponse) (hm : req.method = "POST")
    (hk : keyConfigured k = true) (hb : req.body = none) :
    handler k req up =
      outcome 500 corsHeaders
        (.errJson [("error", "Internal server error"),
          ("message", destructureMsg)])
        false none := by
  have hc : classifyCaught destructureMsg = destructureMsg := rfl
  simp [handler, hm, hk, hb, hc]

/-- Witness for C10 at a concrete input: POST with undefined body. -/
theorem undefined_body_internal_error_witness :
    handler (some "key") { method := "POST", body := none } okUpstream =
      outcome 500 corsHeaders
        (.errJson [("error", "Internal server error"),
          ("message", destructureMsg)])
        false none :=
  undefined_body_internal_error (some "key")
    { method := "POST", body := none } okUpstream rfl rfl rfl

/-- C3: on the non-streaming path a non-success upstream status S is relayed
as HTTP S with the `API request failed` body; the message is the documented
translation for S in 429, 401, 400, 503 and the raw upstream error text
verbatim for every other S. -/
theorem nonstream_upstream_error_relay (k : Option String) (req : Request)
    (up : UpstreamResponse) (b : ReqBody) (hm : req.method = "POST")
    (hk : keyConfigured k = true) (hb : req.body = some b)
    (h1 : truthy b.model = true) (h2 : truthy b.messages = true)
    (hst : truthy b.stream = false) (hok : respOk up = false) :
    handler k req up =
      outcome up.status corsHeaders
        (.errJson [("error", "API request failed"),
          ("message", nonStreamErrMessage up.status up.errorText)])
        true (some (mkPayload b))
    ∧ nonStreamErrMessage 429 up.errorText = rateLimitMsg
    ∧ nonStreamErrMessage 401 up.errorText = authMsg
    ∧ nonStreamErrMessage 400 up.errorText = badReqMsg
    ∧ nonStreamErrMessage 503 up.errorText = unavailMsg
    ∧ (up.status ≠ 429 → up.status ≠ 401 → up.status ≠ 400 →
        up.status ≠ 503 →
        nonStreamErrMessage up.status up.errorText = up.errorText) := by
  refine ⟨?_, rfl, rfl, rfl, rfl, ?_⟩
  · simp [handler, hm, hk, hb, h1, h2, hst, hok]
  · intro h429 h401 h400 h503
    simp [nonStreamErrMessage, h429, h401, h400, h503]

/-- Witness for C3 at a concrete input: non-streaming request, upstream 503. -/
theorem nonstream_upstream_error_relay_witness :
    handler (some "key") (postReq validBody) up503 =
      outcome up503.status corsHeaders
        (.errJson [("error", "API request failed"),
          ("message", nonStreamErrMessage up503.status up503.errorText)])
        true (some (mkPayload validBody))
    ∧ nonStreamErrMessage 429 up503.errorText = rateLimitMsg
    ∧ nonStreamErrMessage 401 up503.errorText = authMsg
    ∧ nonStreamErrMessage 400 up503.errorText = badReqMsg
    ∧ nonStreamErrMessage 503 up503.errorText = unavailMsg
    ∧ (up503.status ≠ 429 → up503.status ≠ 401 → up503.status ≠ 400 →
        up503.status ≠ 503 →
        nonStreamErrMessage up503.status up503.errorText = up503.errorText) :=
  nonstream_upstream_error_relay (some "key") (postReq validBody) up503
    validBody rfl rfl rfl rfl rfl rfl rfl

/-- C1 counterexample: on the streaming path a 503 upstream response keeps
the raw upstream error text — it is not the documented 503 translation, so
the streaming path does not fail exactly as the non-streaming path does. -/
theorem stream_503_not_translated :
    (handler (some "key") (postReq streamingBody) up503).response.body =
      ResBody.errJson [("error", "API request failed"),
        ("message", "upstream raw error text")]
    ∧ "upstream raw error text" ≠ unavailMsg
    ∧ nonStreamErrMessage 503 "upstream raw error text" = unavailMsg := by
  refine ⟨rfl, by decide, rfl⟩

/-- C1 amended: on the streaming path a non-success upstream status S is
relayed as HTTP S with a JSON error body and no streaming headers; the
message is the documented translation for S in 429, 401, 400 only, and the
raw upstream error text verbatim for every other S — including 503, which
unlike the non-streaming path is not translated. -/
theorem stream_upstream_error_relay (k : Option String) (req : Request)
    (up : UpstreamResponse) (b : ReqBody) (hm : req.method = "POST")
    (hk : keyConfigured k = true) (hb : req.body = some b)
    (h1 : truthy b.model = true) (h2 : truthy b.messages = true)
    (hst : truthy b.stream = true) (hok : respOk up = false) :
    handler k req up =
      outcome up.status corsHeaders
        (.errJson [("error", "API request failed"),
          ("message", streamErrMessage up.status up.errorText)])
        true (some (mkPayload b))
    ∧ streamErrMessage 429 up.errorText = rateLimitMsg
    ∧ streamErrMessage 401 up.errorText = authMsg
    ∧ streamErrMessage 400 up.errorText = badReqMsg
    ∧ (up.status ≠ 429 → up.status ≠ 401 → up.status ≠ 400 →
        streamErrMessage up.status up.errorText = up.errorText) := by
  refine ⟨?_, rfl, rfl, rfl, ?_⟩
  · simp [handler, hm, hk, hb, h1, h2, hst, hok]
  · intro h429 h401 h400
    simp [streamErrMessage, h429, h401, h400]

/-- Witness for the amended C1 at a concrete input: streaming request,
upstream 503. -/
theorem stream_upstream_error_relay_witness :
    handler (some "key") (postReq streamingBody) up503 =
      outcome up503.status corsHeaders
        (.errJson [("error", "API request failed"),
          ("message", streamErrMessage up503.status up503.errorText)])
        true (some (mkPayload streamingBody))
    ∧ streamErrMessage 429 up503.errorText = rateLimitMsg
    ∧ streamErrMessage 401 up503.errorText = authMsg
    ∧ streamErrMessage 400 up503.errorText = badReqMsg
    ∧ (up503.status ≠ 429 → up503.status ≠ 401 → up503.status ≠ 400 →
        streamErrMessage up503.status up503.errorText = up503.errorText) :=
  stream_upstream_error_relay (some "key") (postReq streamingBody) up503
    streamingBody rfl rfl rfl rfl rfl rfl rfl

/-- C2: any optional numeric parameter supplied as 0 (and `stream` supplied
as `false`) is replaced in the delivered upstream payload by its documented
default — 0.3, 0.9, 40, 8192, 0, 0, false respectively — while a truthy
supplied value passes through unchanged. -/
theorem zero_params_get_defaults (k : Option String) (req : Request)
    (up : UpstreamResponse) (b : ReqBody) (hm : req.method = "POST")
    (hk : keyConfigured k = true) (hb : req.body = some b)
    (h1 : truthy b.model = true) (h2 : truthy b.messages = true) :
    (handler k req up).payload = some (mkPayload b)
    ∧ (b.temperature = .vNum 0 → (mkPayload b).temperature = .vNum 0.3)
    ∧ (b.top_p = .vNum 0 → (mkPayload b).top_p = .vNum 0.9)
    ∧ (b.top_k = .vNum 0 → (mkPayload b).top_k = .vNum 40)
    ∧ (b.max_tokens = .vNum 0 → (mkPayload b).max_tokens = .vNum 8192)
    ∧ (b.presence_penalty = .vNum 0 →
        (mkPayload b).presence_penalty = .vNum 0)
    ∧ (b.frequency_penalty = .vNum 0 →
        (mkPayload b).frequency_penalty = .vNum 0)
    ∧ (b.stream = .vBool false → (mkPayload b).stream = .vBool false)
    ∧ (truthy b.temperature = true → (mkPayload b).temperature = b.temperature)
    ∧ (truthy b.top_p = true → (mkPayload b).top_p = b.top_p)
    ∧ (truthy b.top_k = true → (mkPayload b).top_k = b.top_k)
    ∧ (truthy b.max_tokens = true → (mkPayload b).max_tokens = b.max_tokens)
    ∧ (truthy b.presence_penalty = true →
        (mkPayload b).presence_penalty = b.presence_penalty)
    ∧ (truthy b.frequency_penalty = true →
        (mkPayload b).frequency_penalty = b.frequency_penalty)
    ∧ (truthy b.stream = true → (mkPayload b).stream = b.stream) := by
  refine ⟨handler_payload k req up b hm hk hb h1 h2,
    ?_, ?_, ?_, ?_, ?_, ?_, ?_, ?_, ?_, ?_, ?_, ?_, ?_, ?_⟩ <;>
    intro h <;> simp [mkPayload, jsOr, h] <;> simp [truthy]

/-- Witness for C2 at a concrete input: every optional numeric parameter
supplied as 0 and `stream` supplied as `false`. -/
theorem zero_params_get_defaults_witness :
    (handler (some "key") (postReq zeroParamsBody) okUpstream).payload =
      some (mkPayload zeroParamsBody)
    ∧ (mkPayload zeroParamsBody).temperature = .vNum 0.3 := by
  refine ⟨(zero_params_get_defaults (some "key") (postReq zeroParamsBody)
    okUpstream zeroParamsBody rfl rfl rfl rfl rfl).1,
    (zero_params_get_defaults (some "key") (postReq zeroParamsBody)
      okUpstream zeroParamsBody rfl rfl rfl rfl rfl).2.1 rfl⟩

/-- C8: on the streaming relay the chunks are written to the caller channel
in arrival order; on clean completion the channel is closed with no synthetic
event, on a mid-stream fault exactly one synthetic interrupt event is
appended before closing, and the channel is closed in every case. -/
theorem stream_relay_order_and_close (k : Option String) (req : Request)
    (up : UpstreamResponse) (b : ReqBody) (sb : UpstreamBody)
    (hm : req.method = "POST") (hk : keyConfigured k = true)
    (hb : req.body = some b) (h1 : truthy b.model = true)
    (h2 : truthy b.messages = true) (hst : truthy b.stream = true)
    (hok : respOk up = true) (hub : up.body = some sb) :
    handler k req up =
      outcome 200 (streamHeaders corsHeaders)
        (.stream (sb.chunks ++ if sb.fault then [interruptEvent] else [])
          true)
        true (some (mkPayload b))
    ∧ (sb.fault = false →
        (handler k req up).response.body = .stream sb.chunks true)
    ∧ (sb.fault = true →
        (handler k req up).response.body =
          .stream (sb.chunks ++ [interruptEvent]) true) := by
  have h : handler k req up =
      outcome 200 (streamHeaders corsHeaders)
        (.stream (sb.chunks ++ if sb.fault then [interruptEvent] else [])
          true)
        true (some (mkPayload b)) := by
    simp [handler, hm, hk, hb, h1, h2, hst, hok, hub]
  refine ⟨h, ?_, ?_⟩ <;> intro hf <;> simp [h, outcome, hf]

/-- Witness for C8 at a concrete input: three chunks, clean completion. -/
theorem stream_relay_order_and_close_witness :
    handler (some "key") (postReq streamingBody) okUpstream =
      outcome 200 (streamHeaders corsHeaders)
        (.stream (okChunks.chunks ++
          if okChunks.fault then [interruptEvent] else []) true)
        true (some (mkPayload streamingBody))
    ∧ (okChunks.fault = false →
        (handler (some "key") (postReq streamingBody)
          okUpstream).response.body = .stream okChunks.chunks true)
    ∧ (okChunks.fault = true →
        (handler (some "key") (postReq streamingBody)
          okUpstream).response.body =
          .stream (okChunks.chunks ++ [interruptEvent]) true) :=
  stream_relay_order_and_close (some "key") (postReq streamingBody)
    okUpstream streamingBody okChunks rfl rfl rfl rfl rfl rfl rfl rfl

/-- C5 counterexample: with a non-empty `tools` and `tool_choice` supplied
(present) but falsy (`null`), the payload contains `tools` but omits
`tool_choice`, so `tool_choice` is not attached whenever it is present. -/
theorem present_falsy_tool_choice_dropped :
    toolsNullChoiceBody.tool_choice ≠ JsValue.vUndefined
    ∧ (mkPayload toolsNullChoiceBody).tools =
        some (JsValue.vArr [.vStr "toolA"])
    ∧ (mkPayload toolsNullChoiceBody).tool_choice = none := by
  refine ⟨?_, rfl, rfl⟩
  intro h
  exact JsValue.noConfusion h

/-- C5 amended: with a non-empty `tools` sequence the upstream payload
contains `tools`, and contains `tool_choice` exactly when `tool_choice` is
truthy (a supplied-but-falsy `tool_choice` is omitted); with `tools` empty or
absent the payload contains neither key. -/
theorem tools_injection (k : Option String) (req : Request)
    (up : UpstreamResponse) (b : ReqBody) (hm : req.method = "POST")
    (hk : keyConfigured k = true) (hb : req.body = some b)
    (h1 : truthy b.model = true) (h2 : truthy b.messages = true) :
    (handler k req up).payload = some (mkPayload b)
    ∧ (∀ xs, b.tools = JsValue.vArr xs → xs ≠ [] →
        (mkPayload b).tools = some (JsValue.vArr xs)
        ∧ (truthy b.tool_choice = true →
            (mkPayload b).tool_choice = some b.tool_choice)
        ∧ (truthy b.tool_choice = false →
            (mkPayload b).tool_choice = none))
    ∧ ((b.tools = JsValue.vArr [] ∨ b.tools = JsValue.vUndefined ∨
        b.tools = JsValue.vNull) →
        (mkPayload b).tools = none ∧ (mkPayload b).tool_choice = none) := by
  refine ⟨handler_payload k req up b hm hk hb h1 h2, ?_, ?_⟩
  · intro xs hxs hne
    have hit : jsHasItems (JsValue.vArr xs) = true := by
      simp [jsHasItems, truthy, jsLen, List.length_pos, hne]
    refine ⟨by simp [mkPayload, hxs, hit], ?_, ?_⟩ <;>
      intro htc <;> simp [mkPayload, hxs, hit, htc]
  · intro h
    rcases h with h | h | h <;>
      simp [mkPayload, jsHasItems, h, truthy, jsLen]

/-- Witness for the amended C5 at a concrete input: one tool plus a truthy
`tool_choice`. -/
theorem tools_injection_witness :
    (handler (some "key") (postReq toolsChoiceBody) okUpstream).payload =
      some (mkPayload toolsChoiceBody)
    ∧ (mkPayload toolsChoiceBody).tools = some (JsValue.vArr [.vStr "toolA"])
    ∧ (mkPayload toolsChoiceBody).tool_choice =
        some (JsValue.vStr "auto") := by
  obtain ⟨hp, hall, -⟩ := tools_injection (some "key")
    (postReq toolsChoiceBody) okUpstream toolsChoiceBody rfl rfl rfl rfl rfl
  obtain ⟨ht, htc, -⟩ := hall [.vStr "toolA"] rfl (by simp)
  exact ⟨hp, ht, htc rfl⟩

/-- C6 counterexample: the 405 Method Not Allowed failure body has only an
`error` field — the `message` field is absent, so not every failure body has
both fields. -/
theorem method_not_allowed_lacks_message :
    handler (some "key") getReq okUpstream =
      outcome 405 corsHeaders
        (.errJson [("error", "Method not allowed")]) false none
    ∧ List.lookup "message" [("error", "Method not allowed")] = none :=
  ⟨rfl, rfl⟩

/-- C6 amended: every failure response has a JSON body with an `error` field,
and also a `message` field except for the 405 Method Not Allowed body and the
streaming missing-body 500, which carry only `error`; the HTTP status is a
fixed 400, 405 or 500, or the relayed upstream status. -/
theorem failure_body_shape (k : Option String) (req : Request)
    (up : UpstreamResponse) :
    ∀ st hs fields c p,
      handler k req up = outcome st hs (.errJson fields) c p →
      (List.lookup "error" fields).isSome = true
      ∧ ((List.lookup "message" fields).isSome = true
         ∨ fields = [("error", "Method not allowed")]
         ∨ fields = [("error", noBodyMsg)])
      ∧ (st = 400 ∨ st = 405 ∨ st = 500 ∨ st = up.status) := by
  intro st hs fields c p h
  simp only [handler] at h
  repeat' split at h
  all_goals
    simp only [outcome, HandlerResult.mk.injEq, Response.mk.injEq,
      ResBody.errJson.injEq] at h
  all_goals
    obtain ⟨⟨rfl, -, h2⟩, -, -⟩ := h
  all_goals
    cases h2
  all_goals
    refine ⟨by rfl, ?_, ?_⟩
  all_goals
    first
      | exact Or.inl rfl
      | exact Or.inr (Or.inl rfl)
      | exact Or.inr (Or.inr rfl)
      | exact Or.inr (Or.inr (Or.inl rfl))
      | exact Or.inr (Or.inr (Or.inr rfl))

/-- Witness for the amended C6 at a concrete input: the GET 405 failure. -/
theorem failure_body_shape_witness :
    (List.lookup "error" [("error", "Method not allowed")]).isSome = true
    ∧ ((List.lookup "message" [("error", "Method not allowed")]).isSome = true
       ∨ [("error", "Method not allowed")] = [("error", "Method not allowed")]
       ∨ [("error", "Method not allowed")] = [("error", noBodyMsg)])
    ∧ ((405 : Nat) = 400 ∨ (405 : Nat) = 405 ∨ (405 : Nat) = 500
       ∨ (405 : Nat) = okUpstream.status) :=
  failure_body_shape (some "key") getReq okUpstream 405 corsHeaders
    [("error", "Method not allowed")] false none rfl

/-- C9 counterexample: the streaming-path 500 produced when the OK upstream
response has no body channel is a failure response, not a streaming success,
yet its `Access-Control-Allow-Headers` is narrowed to `Content-Type`. -/
theorem stream_nobody_narrows_headers :
    (handler (some "key") (postReq streamingBody) up204).response.status = 500
    ∧ (handler (some "key") (postReq streamingBody) up204).response.body =
        ResBody.errJson [("error", noBodyMsg)]
    ∧ getHeader (handler (some "key") (postReq streamingBody)
        up204).response.headers "Access-Control-Allow-Headers" =
        some "Content-Type" :=
  ⟨rfl, rfl, rfl⟩

/-- C9 amended: every response carries `Access-Control-Allow-Origin: *` and
`Access-Control-Allow-Methods: GET, POST, OPTIONS`;
`Access-Control-Allow-Headers` is `Content-Type, Authorization` except on the
streaming path after an OK upstream response — the relayed stream and the
missing-body 500 — where it is narrowed to `Content-Type`. -/
theorem cors_headers_always (k : Option String) (req : Request)
    (up : UpstreamResponse) :
    ∀ st hs bd c p, handler k req up = outcome st hs bd c p →
      getHeader hs "Access-Control-Allow-Origin" = some "*"
      ∧ getHeader hs "Access-Control-Allow-Methods" =
          some "GET, POST, OPTIONS"
      ∧ ((hs = corsHeaders
          ∧ getHeader hs "Access-Control-Allow-Headers" =
              some "Content-Type, Authorization")
        ∨ (hs = streamHeaders corsHeaders
          ∧ getHeader hs "Access-Control-Allow-Headers" = some "Content-Type"
          ∧ ((∃ w cl, bd = ResBody.stream w cl)
             ∨ bd = ResBody.errJson [("error", noBodyMsg)]))) := by
  intro st hs bd c p h
  simp only [handler] at h
  repeat' split at h
  all_goals
    simp only [outcome, HandlerResult.mk.injEq, Response.mk.injEq] at h
  all_goals
    obtain ⟨⟨-, rfl, rfl⟩, -, -⟩ := h
  all_goals
    first
      | exact ⟨rfl, rfl, Or.inl ⟨rfl, rfl⟩⟩
      | exact ⟨rfl, rfl, Or.inr ⟨rfl, rfl, Or.inr rfl⟩⟩
      | exact ⟨rfl, rfl, Or.inr ⟨rfl, rfl, Or.inl ⟨_, _, rfl⟩⟩⟩

/-- Witness for the amended C9 at a concrete input: the OPTIONS preflight. -/
theorem cors_headers_always_witness :
    getHeader corsHeaders "Access-Control-Allow-Origin" = some "*"
    ∧ getHeader corsHeaders "Access-Control-Allow-Methods" =
        some "GET, POST, OPTIONS"
    ∧ ((corsHeaders = corsHeaders
        ∧ getHeader corsHeaders "Access-Control-Allow-Headers" =
            some "Content-Type, Authorization")
      ∨ (corsHeaders = streamHeaders corsHeaders
        ∧ getHeader corsHeaders "Access-Control-Allow-Headers" =
            some "Content-Type"
        ∧ ((∃ w cl, ResBody.empty = ResBody.stream w cl)
           ∨ ResBody.empty = ResBody.errJson [("error", noBodyMsg)]))) :=
  cors_headers_always (some "key") optionsReq okUpstream 200 corsHeaders
    .empty false none rfl

end ChatProxy
